import Mathlib

/-!
# Verification of the flood-hazard visualization app (google-3d-tiles)

Shallow embedding of the core logic of `src/app.jsx` and `src/unnamed/part_000`:
the depth→color scale (`scaleLinear().clamp(true).domain(...).range(COLORS)`
from d3-scale), the layer composition (the `layers` array inside `App`), the
data-filter semantics (`getFilterValue` together with `filterRange` under
deck.gl's `DataFilterExtension`), the credit aggregation callback installed in
`onTilesetLoad` (`onTraversalComplete`), the view transition (`goTo` in
`src/unnamed/part_000`), and the mount-time defaults (the `useState` initial
values and the `depth = 0` default prop).

Numbers are modelled as rationals `ℚ`. JS strings that get split and joined
are modelled as `List Char` so the exact splitting semantics of
`copyright.split(";")` and `[...set].join("; ")` can be embedded.

The d3 and deck.gl library functions the app calls are external dependencies;
their behavior is embedded here following their implementations and
documentation (d3-scale `continuous.js`: a continuous scale observes only the
first `min(domain.length, range.length)` elements of domain and range;
deck.gl `DataFilterExtension`: a feature is shown iff its filter value lies
within `filterRange`, bounds inclusive).
-/

namespace FloodApp

/-- RGB triple as used in the `COLORS` table (channel values as rationals). -/
abbrev RGB := ℚ × ℚ × ℚ

/-- The fixed 8-color table `COLORS` of `src/app.jsx` lines 15–24. -/
def COLORS : List RGB :=
  [ (255, 247, 243),
    (253, 224, 221),
    (252, 197, 192),
    (250, 159, 181),
    (247, 104, 161),
    (221, 52, 151),
    (174, 1, 126),
    (122, 1, 119) ]

/-- The 9 breakpoints passed to `.domain(...)` in `src/app.jsx` line 28. -/
def DOMAIN : List ℚ := [0, 15, 30, 45, 60, 75, 90, 105, 120]

/-- Breakpoint lookup `domain[k]` (out-of-range indices never occur). -/
def domGet (k : Nat) : ℚ := DOMAIN.getD k 0

/-- Color lookup `range[k]` (out-of-range indices never occur). -/
def colorsGet (k : Nat) : RGB := COLORS.getD k (0, 0, 0)

/-- d3-scale observes only the first `min(domain.length, range.length)`
elements of domain and range: the `n` of `rescale` in d3-scale
`continuous.js`. Here `n = min 9 8 = 8`. -/
def nObserved : Nat := min DOMAIN.length COLORS.length

/-- d3 `clamper(domain[0], domain[n-1])`: since `.clamp(true)` is set, inputs
are clamped to `[domain[0], domain[n-1]] = [0, 105]` before interpolation. -/
def clamper (x : ℚ) : ℚ := max (domGet 0) (min (domGet (nObserved - 1)) x)

/-- d3 `normalize(a, b)`: fractional position of `x` in `[a, b]`
(`(x - a) / (b - a)`, or the constant `1/2` when the interval is degenerate). -/
def normalize (a b x : ℚ) : ℚ := if b - a = 0 then 1 / 2 else (x - a) / (b - a)

/-- d3 numeric interpolator `interpolateNumber(a, b)(t) = a + t * (b - a)`. -/
def lerp (a b t : ℚ) : ℚ := a + t * (b - a)

/-- d3 array interpolation of two RGB triples: channelwise `lerp`. -/
def lerpRGB (a b : RGB) (t : ℚ) : RGB :=
  (lerp a.1 b.1 t, lerp a.2.1 b.2.1 t, lerp a.2.2 b.2.2 t)

/-- d3 `polymap` segment count `j = min(domain.length, range.length) - 1 = 7`:
there are 7 interpolation segments, between `domain[0..7]` and `range[0..7]`. -/
def jSegs : Nat := nObserved - 1

/-- d3 `bisect(domain, x, 1, j)`: the right-insertion point of `x` among
`domain[1..j)`, i.e. `1` plus the number of indices `k ∈ [1, j)` with
`domain[k] ≤ x`. -/
def bisect (x : ℚ) : Nat :=
  1 + ((List.range (jSegs - 1)).map (fun k => k + 1)).countP
        (fun k => decide (domGet k ≤ x))

/-- The piecewise-linear map applied after clamping (the closure returned by
d3 `polymap`): pick segment `i = bisect(domain, x, 1, j) - 1` and interpolate
between `range[i]` and `range[i+1]` at the normalized position of `x` in
`[domain[i], domain[i+1]]`. -/
def colorPost (x : ℚ) : RGB :=
  let i := bisect x - 1
  lerpRGB (colorsGet i) (colorsGet (i + 1)) (normalize (domGet i) (domGet (i + 1)) x)

/-- `colorScale` of `src/app.jsx` lines 26–29:
`scaleLinear().clamp(true).domain([0,...,120]).range(COLORS)`, i.e. clamp
then piecewise-linear interpolation as d3-scale implements it. -/
def colorScale (x : ℚ) : RGB := colorPost (clamper x)

/-! ## Features and the data filter -/

/-- A GeoJSON feature as the layers see it: its `properties.flood_depth`
value, or `none` when the property is missing (JS `undefined`). -/
structure Feature where
  flood_depth : Option ℚ

/-- `getFilterValue: (f) => f.properties.flood_depth` (`src/app.jsx`
lines 178 and 195): reading a missing property yields `undefined` (`none`). -/
def getFilterValue (f : Feature) : Option ℚ := f.flood_depth

/-- `getFillColor: ({properties}) => colorScale(properties.flood_depth)`:
d3 returns its `unknown` value (`undefined`, here `none`) for a missing
input instead of erroring. -/
def getFillColor (f : Feature) : Option RGB := (getFilterValue f).map colorScale

/-- `getElevation: ({properties}) => properties.flood_depth`. -/
def getElevation (f : Feature) : Option ℚ := getFilterValue f

/-- deck.gl `DataFilterExtension` semantics for `filterSize: 1`: a feature is
shown iff its filter value lies within `filterRange = (low, high)`, both
bounds inclusive; a missing value (`undefined`, compared as NaN on the GPU)
fails both comparisons, so the feature is filtered out, with no error. -/
def featureIncluded (range : ℚ × ℚ) (f : Feature) : Bool :=
  match getFilterValue f with
  | some v => decide (range.1 ≤ v) && decide (v ≤ range.2)
  | none => false

/-- The features of a layer that survive the data filter: excluded features
are removed from the rendered output, not merely dimmed. -/
def renderedFeatures (range : ℚ × ℚ) (fs : List Feature) : List Feature :=
  fs.filter (featureIncluded range)

/-! ## Layer composition -/

/-- The tileset root URL (`TILESET_URL`, `src/app.jsx` line 13). -/
def TILESET_URL : String := "https://tile.googleapis.com/v1/3dtiles/root.json"

/-- `FLOOD_ZONE_DATA` (`src/app.jsx` line 40). -/
def FLOOD_ZONE_DATA : String := "./data/tuflow_zones.geojson"

/-- `PROJECT_BOUNDS` (`src/app.jsx` line 41). -/
def PROJECT_BOUNDS : String := "./data/tuflow_bounds.geojson"

/-- The constructor arguments of the `Tile3DLayer` (`src/app.jsx`
lines 147–165) that are plain data. -/
structure Tile3DLayerDesc where
  id : String
  data : String
  operation : String

/-- The constructor arguments of a `GeoJsonLayer` (`src/app.jsx`
lines 166–199) that are plain data. -/
structure GeoJsonLayerDesc where
  id : String
  data : String
  stroked : Bool
  filled : Bool
  extruded : Bool
  opacity : ℚ
  filterRange : ℚ × ℚ
  elevationScale : ℚ

/-- A layer descriptor handed to the renderer. -/
inductive Layer where
  | tile3D : Tile3DLayerDesc → Layer
  | geoJson : GeoJsonLayerDesc → Layer

/-- The `layers` array built inside `App` (`src/app.jsx` lines 146–200) as a
function of the UI state it closes over: the `depth` prop (filter threshold)
and the `opacity`, `extruded`, `elevationScale` state values. -/
def composeLayers (depth opacity : ℚ) (extruded : Bool) (elevationScale : ℚ) :
    List Layer :=
  [ Layer.tile3D
      { id := "google-3d-tiles", data := TILESET_URL, operation := "terrain+draw" },
    Layer.geoJson
      { id := "project_boundaries", data := PROJECT_BOUNDS, stroked := false,
        filled := true, extruded := extruded, opacity := opacity,
        filterRange := (depth, 20), elevationScale := elevationScale },
    Layer.geoJson
      { id := "flood_zones", data := FLOOD_ZONE_DATA, stroked := false,
        filled := true, extruded := extruded, opacity := opacity,
        filterRange := (depth, 120), elevationScale := elevationScale } ]

/-- The `id` of a layer. -/
def Layer.idOf : Layer → String
  | .tile3D t => t.id
  | .geoJson g => g.id

/-- The `data` source reference of a layer. -/
def Layer.dataOf : Layer → String
  | .tile3D t => t.data
  | .geoJson g => g.data

/-- The `filterRange` of a layer (`none` for the tile layer, which has no
data filter). -/
def Layer.rangeOf : Layer → Option (ℚ × ℚ)
  | .tile3D _ => none
  | .geoJson g => some g.filterRange

/-- The upper filter bound of a layer. -/
def Layer.upperOf : Layer → Option ℚ
  | .tile3D _ => none
  | .geoJson g => some g.filterRange.2

/-- The `opacity` of a layer. -/
def Layer.opacityOf : Layer → Option ℚ
  | .tile3D _ => none
  | .geoJson g => some g.opacity

/-- The `extruded` flag of a layer. -/
def Layer.extrudedOf : Layer → Option Bool
  | .tile3D _ => none
  | .geoJson g => some g.extruded

/-- The `stroked` flag of a layer. -/
def Layer.strokedOf : Layer → Option Bool
  | .tile3D _ => none
  | .geoJson g => some g.stroked

/-- The `filled` flag of a layer. -/
def Layer.filledOf : Layer → Option Bool
  | .tile3D _ => none
  | .geoJson g => some g.filled

/-- The `elevationScale` of a layer. -/
def Layer.elevationScaleOf : Layer → Option ℚ
  | .tile3D _ => none
  | .geoJson g => some g.elevationScale

/-! ## Credit aggregation -/

/-- A JS string, as a character list, so splitting is modelled exactly. -/
abbrev JSStr := List Char

/-- JS `s.split(";")`: cut at every `';'`; the empty string splits to
`[""]`, and separators at the ends produce empty tokens, as in JS. -/
def splitOnSemi : JSStr → List JSStr
  | [] => [[]]
  | c :: rest =>
    match splitOnSemi rest with
    | [] => [[]]
    | t :: ts => if c = ';' then [] :: t :: ts else (c :: t) :: ts

/-- JS `Set.prototype.add`: insertion-ordered, adding an element already
present is a no-op. -/
def addUnique (acc : List JSStr) (x : JSStr) : List JSStr :=
  if x ∈ acc then acc else acc ++ [x]

/-- The body of the traversal callback (`src/app.jsx` lines 152–156): a fresh
`Set` is filled with the `;`-split pieces of every selected tile's
`content.gltf.asset.copyright` string, in traversal order. A tile is
represented by its copyright string. -/
def collectCredits (selectedTiles : List JSStr) : List JSStr :=
  selectedTiles.foldl
    (fun acc copyright => (splitOnSemi copyright).foldl addUnique acc) []

/-- JS `[...uniqueCredits].join("; ")`. -/
def joinSemiSpace : List JSStr → JSStr
  | [] => []
  | [t] => t
  | t :: ts => t ++ ';' :: ' ' :: joinSemiSpace ts

/-- The full callback `onTraversalComplete` (`src/app.jsx` lines 151–159):
`setCredits([...uniqueCredits].join("; "))` replaces the displayed credit
string wholesale; the previous credits state is never read, so the result
depends only on `selectedTiles`. -/
def onTraversalComplete (prevCredits : JSStr) (selectedTiles : List JSStr) : JSStr :=
  joinSemiSpace (collectCredits selectedTiles)

/-! ## View state -/

/-- The view state fields set by `goTo` (`src/unnamed/part_000`
lines 146–155). -/
structure ViewState where
  latitude : ℚ
  longitude : ℚ
  zoom : ℚ
  pitch : ℚ
  bearing : ℚ
  transitionDuration : Option ℚ

/-- `goTo(lat, lng)` of `src/unnamed/part_000` lines 146–155: the object
passed to `setInitialViewState`. -/
def goTo (lat lng : ℚ) : ViewState :=
  { longitude := lng, latitude := lat, zoom := 17.5, pitch := 0, bearing := 0,
    transitionDuration := some 1000 }

/-- React's `setInitialViewState(obj)` with a literal object replaces the
state value wholesale: the new view state does not depend on the previous
one. -/
def focusUpdate (prev : ViewState) (lat lng : ℚ) : ViewState := goTo lat lng

/-! ## Mount-time defaults -/

/-- The UI state slices held by `useState` in `App`. -/
structure UIState where
  credits : JSStr
  opacity : ℚ
  extruded : Bool
  elevationScale : ℚ

/-- The `useState` initial values of `App` (`src/app.jsx` lines 141–144):
`useState("")`, `useState(0.2)`, `useState(false)`, `useState(0.5)`. -/
def initialUIState : UIState :=
  { credits := "".data, opacity := 0.2, extruded := false, elevationScale := 0.5 }

/-- The default value of the `depth` prop: `App({ data = TILESET_URL,
depth = 0 })` (`src/app.jsx` line 140). -/
def defaultDepth : ℚ := 0

/-! ## Evaluation lemmas for the color scale -/

lemma range6 : List.range (jSegs - 1) = [0, 1, 2, 3, 4, 5] := rfl

lemma domGet_zero : domGet 0 = 0 := rfl

lemma domGet_one : domGet 1 = 15 := rfl

lemma domGet_two : domGet 2 = 30 := rfl

lemma domGet_three : domGet 3 = 45 := rfl

lemma domGet_four : domGet 4 = 60 := rfl

lemma domGet_five : domGet 5 = 75 := rfl

lemma domGet_six : domGet 6 = 90 := rfl

lemma domGet_seven : domGet 7 = 105 := rfl

lemma colorsGet_zero : colorsGet 0 = (255, 247, 243) := rfl

lemma colorsGet_one : colorsGet 1 = (253, 224, 221) := rfl

lemma colorsGet_two : colorsGet 2 = (252, 197, 192) := rfl

lemma colorsGet_three : colorsGet 3 = (250, 159, 181) := rfl

lemma colorsGet_four : colorsGet 4 = (247, 104, 161) := rfl

lemma colorsGet_five : colorsGet 5 = (221, 52, 151) := rfl

lemma colorsGet_six : colorsGet 6 = (174, 1, 126) := rfl

lemma colorsGet_seven : colorsGet 7 = (122, 1, 119) := rfl

lemma clamper_def (x : ℚ) : clamper x = max 0 (min 105 x) := rfl

lemma colorPost_def (x : ℚ) :
    colorPost x = lerpRGB (colorsGet (bisect x - 1)) (colorsGet (bisect x - 1 + 1))
      (normalize (domGet (bisect x - 1)) (domGet (bisect x - 1 + 1)) x) := rfl

lemma bisect_eval (x : ℚ) :
    bisect x = 1 + ((if (15 : ℚ) ≤ x then 1 else 0) + (if (30 : ℚ) ≤ x then 1 else 0)
      + (if (45 : ℚ) ≤ x then 1 else 0) + (if (60 : ℚ) ≤ x then 1 else 0)
      + (if (75 : ℚ) ≤ x then 1 else 0) + (if (90 : ℚ) ≤ x then 1 else 0)) := by
  unfold bisect
  rw [range6]
  norm_num [List.countP_cons, List.countP_nil, decide_eq_true_eq,
    domGet_one, domGet_two, domGet_three, domGet_four, domGet_five, domGet_six]
  ring

/-- On each of the 7 segments actually observed by d3 (`[15i, 15(i+1)]` for `i ≤ 6`), `colorScale` linearly interpolates between the adjacent colors `i` and `i+1`. -/
lemma colorScale_seg (i : Nat) (hi : i ≤ 6) (x : ℚ)
    (h1 : 15 * (i : ℚ) ≤ x) (h2 : x ≤ 15 * ((i : ℚ) + 1)) :
    colorScale x = lerpRGB (colorsGet i) (colorsGet (i + 1)) ((x - 15 * (i : ℚ)) / 15) := by
  interval_cases i
  · norm_num at h1 h2 ⊢
    rcases eq_or_lt_of_le h2 with heq | hlt
    · subst heq
      norm_num [colorScale, clamper_def, colorPost_def, bisect_eval, normalize, lerpRGB, lerp,
        domGet_zero, domGet_one, domGet_two, domGet_three, domGet_four, domGet_five,
        domGet_six, domGet_seven, colorsGet_zero, colorsGet_one, colorsGet_two,
        colorsGet_three, colorsGet_four, colorsGet_five, colorsGet_six, colorsGet_seven,
        min_def, max_def]
    · rw [colorScale, clamper_def, min_eq_right (by linarith : x ≤ 105),
        max_eq_right (by linarith : (0 : ℚ) ≤ x), colorPost_def, bisect_eval,
        if_neg (by linarith : ¬ (15 : ℚ) ≤ x),
        if_neg (by linarith : ¬ (30 : ℚ) ≤ x),
        if_neg (by linarith : ¬ (45 : ℚ) ≤ x),
        if_neg (by linarith : ¬ (60 : ℚ) ≤ x),
        if_neg (by linarith : ¬ (75 : ℚ) ≤ x),
        if_neg (by linarith : ¬ (90 : ℚ) ≤ x)]
      norm_num [normalize, lerpRGB, lerp, domGet_zero, domGet_one]
  · norm_num at h1 h2 ⊢
    rcases eq_or_lt_of_le h2 with heq | hlt
    · subst heq
      norm_num [colorScale, clamper_def, colorPost_def, bisect_eval, normalize, lerpRGB, lerp,
        domGet_zero, domGet_one, domGet_two, domGet_three, domGet_four, domGet_five,
        domGet_six, domGet_seven, colorsGet_zero, colorsGet_one, colorsGet_two,
        colorsGet_three, colorsGet_four, colorsGet_five, colorsGet_six, colorsGet_seven,
        min_def, max_def]
    · rw [colorScale, clamper_def, min_eq_right (by linarith : x ≤ 105),
        max_eq_right (by linarith : (0 : ℚ) ≤ x), colorPost_def, bisect_eval,
        if_pos (by linarith : (15 : ℚ) ≤ x),
        if_neg (by linarith : ¬ (30 : ℚ) ≤ x),
        if_neg (by linarith : ¬ (45 : ℚ) ≤ x),
        if_neg (by linarith : ¬ (60 : ℚ) ≤ x),
        if_neg (by linarith : ¬ (75 : ℚ) ≤ x),
        if_neg (by linarith : ¬ (90 : ℚ) ≤ x)]
      norm_num [normalize, lerpRGB, lerp, domGet_one, domGet_two]
  · norm_num at h1 h2 ⊢
    rcases eq_or_lt_of_le h2 with heq | hlt
    · subst heq
      norm_num [colorScale, clamper_def, colorPost_def, bisect_eval, normalize, lerpRGB, lerp,
        domGet_zero, domGet_one, domGet_two, domGet_three, domGet_four, domGet_five,
        domGet_six, domGet_seven, colorsGet_zero, colorsGet_one, colorsGet_two,
        colorsGet_three, colorsGet_four, colorsGet_five, colorsGet_six, colorsGet_seven,
        min_def, max_def]
    · rw [colorScale, clamper_def, min_eq_right (by linarith : x ≤ 105),
        max_eq_right (by linarith : (0 : ℚ) ≤ x), colorPost_def, bisect_eval,
        if_pos (by linarith : (15 : ℚ) ≤ x),
        if_pos (by linarith : (30 : ℚ) ≤ x),
        if_neg (by linarith : ¬ (45 : ℚ) ≤ x),
        if_neg (by linarith : ¬ (60 : ℚ) ≤ x),
        if_neg (by linarith : ¬ (75 : ℚ) ≤ x),
        if_neg (by linarith : ¬ (90 : ℚ) ≤ x)]
      norm_num [normalize, lerpRGB, lerp, domGet_two, domGet_three]
  · norm_num at h1 h2 ⊢
    rcases eq_or_lt_of_le h2 with heq | hlt
    · subst heq
      norm_num [colorScale, clamper_def, colorPost_def, bisect_eval, normalize, lerpRGB, lerp,
        domGet_zero, domGet_one, domGet_two, domGet_three, domGet_four, domGet_five,
        domGet_six, domGet_seven, colorsGet_zero, colorsGet_one, colorsGet_two,
        colorsGet_three, colorsGet_four, colorsGet_five, colorsGet_six, colorsGet_seven,
        min_def, max_def]
    · rw [colorScale, clamper_def, min_eq_right (by linarith : x ≤ 105),
        max_eq_right (by linarith : (0 : ℚ) ≤ x), colorPost_def, bisect_eval,
        if_pos (by linarith : (15 : ℚ) ≤ x),
        if_pos (by linarith : (30 : ℚ) ≤ x),
        if_pos (by linarith : (45 : ℚ) ≤ x),
        if_neg (by linarith : ¬ (60 : ℚ) ≤ x),
        if_neg (by linarith : ¬ (75 : ℚ) ≤ x),
        if_neg (by linarith : ¬ (90 : ℚ) ≤ x)]
      norm_num [normalize, lerpRGB, lerp, domGet_three, domGet_four]
  · norm_num at h1 h2 ⊢
    rcases eq_or_lt_of_le h2 with heq | hlt
    · subst heq
      norm_num [colorScale, clamper_def, colorPost_def, bisect_eval, normalize, lerpRGB, lerp,
        domGet_zero, domGet_one, domGet_two, domGet_three, domGet_four, domGet_five,
        domGet_six, domGet_seven, colorsGet_zero, colorsGet_one, colorsGet_two,
        colorsGet_three, colorsGet_four, colorsGet_five, colorsGet_six, colorsGet_seven,
        min_def, max_def]
    · rw [colorScale, clamper_def, min_eq_right (by linarith : x ≤ 105),
        max_eq_right (by linarith : (0 : ℚ) ≤ x), colorPost_def, bisect_eval,
        if_pos (by linarith : (15 : ℚ) ≤ x),
        if_pos (by linarith : (30 : ℚ) ≤ x),
        if_pos (by linarith : (45 : ℚ) ≤ x),
        if_pos (by linarith : (60 : ℚ) ≤ x),
        if_neg (by linarith : ¬ (75 : ℚ) ≤ x),
        if_neg (by linarith : ¬ (90 : ℚ) ≤ x)]
      norm_num [normalize, lerpRGB, lerp, domGet_four, domGet_five]
  · norm_num at h1 h2 ⊢
    rcases eq_or_lt_of_le h2 with heq | hlt
    · subst heq
      norm_num [colorScale, clamper_def, colorPost_def, bisect_eval, normalize, lerpRGB, lerp,
        domGet_zero, domGet_one, domGet_two, domGet_three, domGet_four, domGet_five,
        domGet_six, domGet_seven, colorsGet_zero, colorsGet_one, colorsGet_two,
        colorsGet_three, colorsGet_four, colorsGet_five, colorsGet_six, colorsGet_seven,
        min_def, max_def]
    · rw [colorScale, clamper_def, min_eq_right (by linarith : x ≤ 105),
        max_eq_right (by linarith : (0 : ℚ) ≤ x), colorPost_def, bisect_eval,
        if_pos (by linarith : (15 : ℚ) ≤ x),
        if_pos (by linarith : (30 : ℚ) ≤ x),
        if_pos (by linarith : (45 : ℚ) ≤ x),
        if_pos (by linarith : (60 : ℚ) ≤ x),
        if_pos (by linarith : (75 : ℚ) ≤ x),
        if_neg (by linarith : ¬ (90 : ℚ) ≤ x)]
      norm_num [normalize, lerpRGB, lerp, domGet_five, domGet_six]
  · norm_num at h1 h2 ⊢
    rcases eq_or_lt_of_le h2 with heq | hlt
    · subst heq
      norm_num [colorScale, clamper_def, colorPost_def, bisect_eval, normalize, lerpRGB, lerp,
        domGet_zero, domGet_one, domGet_two, domGet_three, domGet_four, domGet_five,
        domGet_six, domGet_seven, colorsGet_zero, colorsGet_one, colorsGet_two,
        colorsGet_three, colorsGet_four, colorsGet_five, colorsGet_six, colorsGet_seven,
        min_def, max_def]
    · rw [colorScale, clamper_def, min_eq_right (by linarith : x ≤ 105),
        max_eq_right (by linarith : (0 : ℚ) ≤ x), colorPost_def, bisect_eval,
        if_pos (by linarith : (15 : ℚ) ≤ x),
        if_pos (by linarith : (30 : ℚ) ≤ x),
        if_pos (by linarith : (45 : ℚ) ≤ x),
        if_pos (by linarith : (60 : ℚ) ≤ x),
        if_pos (by linarith : (75 : ℚ) ≤ x),
        if_pos (by linarith : (90 : ℚ) ≤ x)]
      norm_num [normalize, lerpRGB, lerp, domGet_six, domGet_seven]

/-- For every depth at or above 105 (the last domain value d3 observes),
`colorScale` is constant, equal to the last color of the table. -/
lemma colorScale_high (x : ℚ) (h : 105 ≤ x) : colorScale x = (122, 1, 119) := by
  rw [colorScale, clamper_def, min_eq_left h,
    max_eq_right (by norm_num : (0 : ℚ) ≤ 105)]
  norm_num [colorPost_def, bisect_eval, normalize, lerpRGB, lerp,
    domGet_six, domGet_seven, colorsGet_six, colorsGet_seven]

/-- Each channel of the color table is non-increasing from one color to the
next. -/
lemma table_nonincreasing (i : Nat) (hi : i < 7) :
    (colorsGet (i + 1)).1 ≤ (colorsGet i).1 ∧
    (colorsGet (i + 1)).2.1 ≤ (colorsGet i).2.1 ∧
    (colorsGet (i + 1)).2.2 ≤ (colorsGet i).2.2 := by
  interval_cases i <;>
    norm_num [colorsGet_zero, colorsGet_one, colorsGet_two, colorsGet_three,
      colorsGet_four, colorsGet_five, colorsGet_six, colorsGet_seven]


/-! ## Claims -/

/-- C1 counterexample: the claim says `colorFor` interpolates between two
adjacent colors of the table across the last sub-interval `[105, 120]` (the
value at 105 being the earlier color of the pair and the value at 120 the
later, distinct, one). In the code, d3-scale observes only the first
`min(9, 8) = 8` domain elements, clamps to `[0, 105]`, and therefore returns
the same triple — the last color — at 105, 110 and 120, while every pair of
adjacent colors of the table is distinct, so no adjacent pair can realize
those values as a linear interpolation over `[105, 120]`. -/
theorem C1_last_subinterval_counterexample :
    colorScale 105 = (122, 1, 119) ∧ colorScale 110 = (122, 1, 119) ∧
    colorScale 120 = (122, 1, 119) ∧
    colorsGet 0 ≠ colorsGet 1 ∧ colorsGet 1 ≠ colorsGet 2 ∧
    colorsGet 2 ≠ colorsGet 3 ∧ colorsGet 3 ≠ colorsGet 4 ∧
    colorsGet 4 ≠ colorsGet 5 ∧ colorsGet 5 ≠ colorsGet 6 ∧
    colorsGet 6 ≠ colorsGet 7 := by
  refine ⟨colorScale_high 105 (by norm_num), colorScale_high 110 (by norm_num),
    colorScale_high 120 (by norm_num), ?_, ?_, ?_, ?_, ?_, ?_, ?_⟩ <;>
    norm_num [colorsGet_zero, colorsGet_one, colorsGet_two, colorsGet_three,
      colorsGet_four, colorsGet_five, colorsGet_six, colorsGet_seven, Prod.ext_iff]

/-- C1 (amended): `colorFor` clamps the depth to `[0, 105]` (d3 observes only
the first 8 of the 9 breakpoints, because the range has only 8 colors) and
linearly interpolates each RGB channel between the two adjacent colors on
each of the 7 sub-intervals `[15i, 15(i+1)]`, `i ≤ 6`; on `[105, 120]` (and
beyond) the result is constant, equal to the last color. -/
theorem C1_color_interpolation_amended :
    (∀ i : Nat, i ≤ 6 → ∀ d : ℚ, 15 * (i : ℚ) ≤ d → d ≤ 15 * ((i : ℚ) + 1) →
      colorScale d = lerpRGB (colorsGet i) (colorsGet (i + 1)) ((d - 15 * (i : ℚ)) / 15)) ∧
    (∀ d : ℚ, 105 ≤ d → colorScale d = colorsGet 7) :=
  ⟨colorScale_seg, fun d hd => by rw [colorsGet_seven]; exact colorScale_high d hd⟩

/-- Witness for C1 (amended): depth 50 lies in the fourth sub-interval
`[45, 60]` and gets the interpolated color there; depth 110 gets the constant
last color. -/
theorem C1_color_interpolation_amended_witness :
    colorScale 50 = lerpRGB (colorsGet 3) (colorsGet 4) ((50 - 15 * ((3 : Nat) : ℚ)) / 15) ∧
    colorScale 110 = colorsGet 7 :=
  ⟨C1_color_interpolation_amended.1 3 (by norm_num) 50 (by norm_num) (by norm_num),
   C1_color_interpolation_amended.2 110 (by norm_num)⟩

/-- C2: `colorFor` is total with saturating clamping: `colorFor 0` is the
first color of the table, `colorFor 120` the last, `colorFor 15` the second,
every negative depth maps to `colorFor 0` and every depth above 120 maps to
`colorFor 120`. -/
theorem C2_clamping_totality :
    colorScale 0 = (255, 247, 243) ∧ colorScale 120 = (122, 1, 119) ∧
    colorScale 15 = (253, 224, 221) ∧
    (∀ d : ℚ, d < 0 → colorScale d = colorScale 0) ∧
    (∀ d : ℚ, 120 < d → colorScale d = colorScale 120) := by
  refine ⟨?_, ?_, ?_, ?_, ?_⟩
  · norm_num [colorScale, clamper_def, colorPost_def, bisect_eval, normalize, lerpRGB, lerp,
      domGet_zero, domGet_one, colorsGet_zero, colorsGet_one, min_def, max_def]
  · norm_num [colorScale, clamper_def, colorPost_def, bisect_eval, normalize, lerpRGB, lerp,
      domGet_six, domGet_seven, colorsGet_six, colorsGet_seven, min_def, max_def]
  · norm_num [colorScale, clamper_def, colorPost_def, bisect_eval, normalize, lerpRGB, lerp,
      domGet_one, domGet_two, colorsGet_one, colorsGet_two, min_def, max_def]
  · intro d hd
    rw [colorScale, colorScale, clamper_def, clamper_def]
    congr 1
    rw [min_eq_right (by linarith : d ≤ (105 : ℚ)), max_eq_left hd.le]
    norm_num [min_def, max_def]
  · intro d hd
    rw [colorScale, colorScale, clamper_def, clamper_def]
    congr 1
    rw [min_eq_left (by linarith : (105 : ℚ) ≤ d)]
    norm_num [min_def, max_def]

/-- Witness for C2: the clamping equalities at `-50` and `500`. -/
theorem C2_clamping_totality_witness :
    colorScale (-50) = colorScale 0 ∧ colorScale 500 = colorScale 120 :=
  ⟨C2_clamping_totality.2.2.2.1 (-50) (by norm_num),
   C2_clamping_totality.2.2.2.2 500 (by norm_num)⟩

/-- C3: the color table is channelwise non-increasing from each color to the
next, and accordingly, on every sub-interval `[15i, 15(i+1)]` (`i ≤ 7`) of
the nominal domain, every RGB channel of `colorFor` is monotone
non-increasing — the fixed direction the table determines per channel. -/
theorem C3_channel_monotone_per_subinterval :
    (∀ i : Nat, i < 7 →
      (colorsGet (i + 1)).1 ≤ (colorsGet i).1 ∧
      (colorsGet (i + 1)).2.1 ≤ (colorsGet i).2.1 ∧
      (colorsGet (i + 1)).2.2 ≤ (colorsGet i).2.2) ∧
    (∀ i : Nat, i ≤ 7 → ∀ d1 d2 : ℚ,
      15 * (i : ℚ) ≤ d1 → d1 ≤ d2 → d2 ≤ 15 * ((i : ℚ) + 1) →
      (colorScale d2).1 ≤ (colorScale d1).1 ∧
      (colorScale d2).2.1 ≤ (colorScale d1).2.1 ∧
      (colorScale d2).2.2 ≤ (colorScale d1).2.2) := by
  refine ⟨table_nonincreasing, ?_⟩
  intro i hi d1 d2 h1 h12 h2
  by_cases h7 : i = 7
  · subst h7
    norm_num at h1 h2
    rw [colorScale_high d1 (by linarith), colorScale_high d2 (by linarith)]
    norm_num
  · have hi6 : i ≤ 6 := by omega
    rw [colorScale_seg i hi6 d1 h1 (by linarith), colorScale_seg i hi6 d2 (by linarith) h2]
    obtain ⟨hr, hg, hb⟩ := table_nonincreasing i (by omega)
    have ht : (d1 - 15 * (i : ℚ)) / 15 ≤ (d2 - 15 * (i : ℚ)) / 15 := by linarith
    refine ⟨?_, ?_, ?_⟩
    · dsimp only [lerpRGB, lerp]
      have hm := mul_le_mul_of_nonpos_right ht (sub_nonpos.2 hr)
      linarith
    · dsimp only [lerpRGB, lerp]
      have hm := mul_le_mul_of_nonpos_right ht (sub_nonpos.2 hg)
      linarith
    · dsimp only [lerpRGB, lerp]
      have hm := mul_le_mul_of_nonpos_right ht (sub_nonpos.2 hb)
      linarith

/-- Witness for C3: the table direction at the pair (2, 3), and monotonicity
at depths 17 ≤ 22 inside the sub-interval `[15, 30]`. -/
theorem C3_channel_monotone_per_subinterval_witness :
    ((colorsGet 3).1 ≤ (colorsGet 2).1 ∧ (colorsGet 3).2.1 ≤ (colorsGet 2).2.1 ∧
      (colorsGet 3).2.2 ≤ (colorsGet 2).2.2) ∧
    ((colorScale 22).1 ≤ (colorScale 17).1 ∧ (colorScale 22).2.1 ≤ (colorScale 17).2.1 ∧
      (colorScale 22).2.2 ≤ (colorScale 17).2.2) :=
  ⟨C3_channel_monotone_per_subinterval.1 2 (by norm_num),
   C3_channel_monotone_per_subinterval.2 1 (by norm_num) 17 22 (by norm_num) (by norm_num)
     (by norm_num)⟩


/-- C4: the data filter is inclusive at both ends — a feature carrying a
`flood_depth` value is in the rendered output iff its value lies in
`[low, high]`, excluded features being removed from the output; concretely,
with `filterRange = (10, 20)`: depth 5 excluded, 10 included, 20 included,
21 excluded. -/
theorem C4_filter_range_inclusive :
    (∀ low high v : ℚ,
      featureIncluded (low, high) ⟨some v⟩ = true ↔ low ≤ v ∧ v ≤ high) ∧
    (∀ range : ℚ × ℚ, ∀ fs : List Feature, ∀ f : Feature,
      f ∈ renderedFeatures range fs ↔ f ∈ fs ∧ featureIncluded range f = true) ∧
    featureIncluded (10, 20) ⟨some 5⟩ = false ∧
    featureIncluded (10, 20) ⟨some 10⟩ = true ∧
    featureIncluded (10, 20) ⟨some 20⟩ = true ∧
    featureIncluded (10, 20) ⟨some 21⟩ = false := by
  refine ⟨?_, ?_, ?_, ?_, ?_, ?_⟩
  · intro low high v
    simp [featureIncluded, getFilterValue]
  · intro range fs f
    simp [renderedFeatures, List.mem_filter]
  all_goals norm_num [featureIncluded, getFilterValue]

/-- C5: for every UI state, the composed layer list is the 3D tiles layer
first, then the boundary layer, then the flood-zone layer; the two draped
layers share the lower filter bound (the depth threshold) and have the
distinct upper bounds 20 and 120. -/
theorem C5_layer_order_and_bounds :
    ∀ depth opacity elevationScale : ℚ, ∀ extruded : Bool,
      ∃ t b f, composeLayers depth opacity extruded elevationScale =
          [Layer.tile3D t, Layer.geoJson b, Layer.geoJson f] ∧
        t.id = "google-3d-tiles" ∧ b.id = "project_boundaries" ∧
        f.id = "flood_zones" ∧
        b.filterRange = (depth, 20) ∧ f.filterRange = (depth, 120) ∧
        b.filterRange.1 = f.filterRange.1 ∧ b.filterRange.2 ≠ f.filterRange.2 := by
  intro depth opacity elevationScale extruded
  exact ⟨_, _, _, rfl, rfl, rfl, rfl, rfl, rfl, rfl, by norm_num⟩

/-- C6: a feature lacking `flood_depth` is treated as filtered-out: its
filter predicate is false, it never appears in the rendered output of any
feature list, and the fill-color and elevation accessors return the benign
`none` (JS `undefined`) instead of erroring. -/
theorem C6_missing_flood_depth_filtered_out :
    ∀ range : ℚ × ℚ, ∀ f : Feature, f.flood_depth = none →
      featureIncluded range f = false ∧
      (∀ fs : List Feature, f ∉ renderedFeatures range fs) ∧
      getFillColor f = none ∧ getElevation f = none := by
  intro range f hf
  have hinc : featureIncluded range f = false := by
    simp [featureIncluded, getFilterValue, hf]
  refine ⟨hinc, ?_, ?_, ?_⟩
  · intro fs hmem
    simp [renderedFeatures, List.mem_filter, hinc] at hmem
  · simp [getFillColor, getFilterValue, hf]
  · simp [getElevation, getFilterValue, hf]

/-- Witness for C6: a feature with no `flood_depth` is excluded from the
output of a concrete feature list under the flood-zone filter range. -/
theorem C6_missing_flood_depth_filtered_out_witness :
    featureIncluded (0, 120) ⟨none⟩ = false ∧
    (⟨none⟩ : Feature) ∉ renderedFeatures (0, 120) [⟨some 50⟩, ⟨none⟩] ∧
    getFillColor ⟨none⟩ = none :=
  ⟨(C6_missing_flood_depth_filtered_out (0, 120) ⟨none⟩ rfl).1,
   (C6_missing_flood_depth_filtered_out (0, 120) ⟨none⟩ rfl).2.1 [⟨some 50⟩, ⟨none⟩],
   (C6_missing_flood_depth_filtered_out (0, 120) ⟨none⟩ rfl).2.2.1⟩

/-- C7: the traversal callback splits each tile's copyright on `";"`,
deduplicates into a fresh insertion-ordered set, joins with `"; "`, and the
result replaces the previous credit string and depends only on the tile
list; for tiles `"A;B"` and `"B;C"` the tokens are exactly `A`, `B`, `C`,
each once, joined as `"A; B; C"`. -/
theorem C7_credit_aggregation :
    (∀ prev1 prev2 : JSStr, ∀ tiles : List JSStr,
      onTraversalComplete prev1 tiles = onTraversalComplete prev2 tiles) ∧
    collectCredits ["A;B".data, "B;C".data] = ["A".data, "B".data, "C".data] ∧
    onTraversalComplete [] ["A;B".data, "B;C".data] = "A; B; C".data ∧
    List.count "A".data (collectCredits ["A;B".data, "B;C".data]) = 1 ∧
    List.count "B".data (collectCredits ["A;B".data, "B;C".data]) = 1 ∧
    List.count "C".data (collectCredits ["A;B".data, "B;C".data]) = 1 := by
  refine ⟨fun prev1 prev2 tiles => rfl, ?_, ?_, ?_, ?_, ?_⟩ <;> decide

/-- C8: `goTo(lat, lng)` produces a view state with exactly the requested
latitude and longitude, zoom 17.5, pitch 0, bearing 0, and the nonzero
transition duration 1000 ms; the state update replaces the previous view
state wholesale (the result never depends on it). -/
theorem C8_focus_on_view_state :
    ∀ lat lng : ℚ,
      (goTo lat lng).latitude = lat ∧ (goTo lat lng).longitude = lng ∧
      (goTo lat lng).zoom = 17.5 ∧ (goTo lat lng).pitch = 0 ∧
      (goTo lat lng).bearing = 0 ∧
      (goTo lat lng).transitionDuration = some 1000 ∧ (1000 : ℚ) ≠ 0 ∧
      ∀ prev1 prev2 : ViewState, focusUpdate prev1 lat lng = focusUpdate prev2 lat lng := by
  intro lat lng
  exact ⟨rfl, rfl, rfl, rfl, rfl, rfl, by norm_num, fun prev1 prev2 => rfl⟩

/-- C9: recomposing the layers with the depth threshold changed from 0 to 50
excludes from the flood-zone layer every feature with `flood_depth < 50`
(its filter range becomes `(50, 120)`), while the ids, data sources,
stroked/filled flags, extrusion, opacity, upper filter bounds, elevation
scales and the layer ordering are all unchanged between the two
compositions. -/
theorem C9_depth_threshold_recomposition :
    ∀ opacity elevationScale : ℚ, ∀ extruded : Bool, ∀ v : ℚ, v < 50 →
      featureIncluded (50, 120) ⟨some v⟩ = false ∧
      (composeLayers 50 opacity extruded elevationScale).map Layer.rangeOf =
        [none, some (50, 20), some (50, 120)] ∧
      (composeLayers 50 opacity extruded elevationScale).map Layer.idOf =
        (composeLayers 0 opacity extruded elevationScale).map Layer.idOf ∧
      (composeLayers 50 opacity extruded elevationScale).map Layer.dataOf =
        (composeLayers 0 opacity extruded elevationScale).map Layer.dataOf ∧
      (composeLayers 50 opacity extruded elevationScale).map Layer.strokedOf =
        (composeLayers 0 opacity extruded elevationScale).map Layer.strokedOf ∧
      (composeLayers 50 opacity extruded elevationScale).map Layer.filledOf =
        (composeLayers 0 opacity extruded elevationScale).map Layer.filledOf ∧
      (composeLayers 50 opacity extruded elevationScale).map Layer.extrudedOf =
        (composeLayers 0 opacity extruded elevationScale).map Layer.extrudedOf ∧
      (composeLayers 50 opacity extruded elevationScale).map Layer.opacityOf =
        (composeLayers 0 opacity extruded elevationScale).map Layer.opacityOf ∧
      (composeLayers 50 opacity extruded elevationScale).map Layer.upperOf =
        (composeLayers 0 opacity extruded elevationScale).map Layer.upperOf ∧
      (composeLayers 50 opacity extruded elevationScale).map Layer.elevationScaleOf =
        (composeLayers 0 opacity extruded elevationScale).map Layer.elevationScaleOf := by
  intro opacity elevationScale extruded v hv
  refine ⟨?_, rfl, rfl, rfl, rfl, rfl, rfl, rfl, rfl, rfl⟩
  simp only [featureIncluded, getFilterValue]
  rw [decide_eq_false (by linarith : ¬ (50 : ℚ) ≤ v)]
  simp

/-- Witness for C9: a feature of depth 49 is excluded by the recomposed
flood-zone filter. -/
theorem C9_depth_threshold_recomposition_witness :
    featureIncluded (50, 120) ⟨some 49⟩ = false :=
  (C9_depth_threshold_recomposition 0.2 0.5 false 49 (by norm_num)).1

/-- C10: at mount the UI state has opacity 0.2, extrusion off, elevation
scale 0.5, depth threshold 0, and an empty credit string; the traversal
callback applied to an empty tile list also yields the empty string. -/
theorem C10_mount_defaults :
    initialUIState.opacity = 0.2 ∧ initialUIState.extruded = false ∧
    initialUIState.elevationScale = 0.5 ∧ defaultDepth = 0 ∧
    initialUIState.credits = "".data ∧ initialUIState.credits = [] ∧
    onTraversalComplete initialUIState.credits [] = [] :=
  ⟨rfl, rfl, rfl, rfl, rfl, rfl, rfl⟩

end FloodApp
